import Mathlib

/-!
# Request-handling utilities of the single-node build

A shallow embedding of `vault/request_handling_util.go` (build tag `!enterprise`).

Conventions of the embedding

* A Go pointer `*T` is `Ptr T`: either `nil` or the address of a `T`.  None of the
  functions of this file dereferences a pointer, except `getLeaseRegisterFunc`,
  which reads the field `c.expiration` of the core it is handed; memory holding
  `Core` values is therefore passed to it explicitly (`CoreMem`).
* A Go `error` is `error := Option ErrorValue`, where `none` is the nil error.
* A Go call either returns or panics: `Outcome`.
* Methods of `Core` and of `ExpirationManager` that live in other files of the
  package (`SaveMFAResponseAuth`, `GetUserFailedLoginInfo`,
  `UpdateUserFailedLoginInfo`, `Register`, `RegisterAuth`) are parameters of the
  functions that call them: state transformers over an arbitrary state `σ` that
  may return or panic.
-/

namespace Vault

/-! ## Values -/

/-- Result of running a Go call: it returns a value or the goroutine panics. -/
inductive Outcome (α : Type) where
  | returned (v : α)
  | panicked (msg : String)
  deriving DecidableEq, Repr

/-- Go pointer to a value of type `α`: nil, or an address. -/
inductive Ptr (α : Type) where
  | nil
  | addr (a : Nat)
  deriving Repr

instance (α : Type) : DecidableEq (Ptr α) := fun p q =>
  match p, q with
  | .nil, .nil => isTrue rfl
  | .nil, .addr _ => isFalse (fun h => Ptr.noConfusion h)
  | .addr _, .nil => isFalse (fun h => Ptr.noConfusion h)
  | .addr a, .addr b =>
    if h : a = b then isTrue (by rw [h]) else isFalse (fun h2 => h (Ptr.addr.inj h2))

/-- Non-nil value of the Go interface `error`: the identity of the underlying
value together with the text of its `Error()` method. -/
structure ErrorValue where
  id : Nat
  msg : String
  deriving DecidableEq, Repr

/-- Go interface `error`; `none` is the nil error. -/
abbrev error := Option ErrorValue

/-- Go interface `context.Context`; `none` is the nil interface. The functions of
this file only pass it on. -/
abbrev Context := Option Nat

/-- Marker for `logical.Request` (only ever handled through `Ptr`). -/
structure Request where
  deriving DecidableEq, Repr

/-- Marker for `logical.Response` (only ever handled through `Ptr`). -/
structure Response where
  deriving DecidableEq, Repr

/-- Marker for `logical.Auth` (only ever handled through `Ptr`). -/
structure Auth where
  deriving DecidableEq, Repr

/-- Marker for `identity.Entity` (only ever handled through `Ptr`). -/
structure Entity where
  deriving DecidableEq, Repr

/-- Marker for `sync.WaitGroup` (only ever handled through `Ptr`). -/
structure WaitGroup where
  deriving DecidableEq, Repr

/-- Marker for `MFACachedAuthResponse` (only ever handled through `Ptr`). -/
structure MFACachedAuthResponse where
  deriving DecidableEq, Repr

/-- Marker for `ExpirationManager` (only ever handled through `Ptr`). -/
structure ExpirationManager where
  deriving DecidableEq, Repr

/-- Modelled from the spec: the struct `FailedLoginUser`, whose declaration is in
another file; the (identity, mount) key of the lockout tracker. -/
structure FailedLoginUser where
  identity : String
  mount : String
  deriving DecidableEq, Repr

/-- Modelled from the spec: the struct `FailedLoginInfo`, whose declaration is in
another file; an attempt count and the time of the last attempt. -/
structure FailedLoginInfo where
  count : Nat
  lastAttempt : Nat
  deriving DecidableEq, Repr

/-- The one field of `Core` that this file reads: `c.expiration`, a pointer to the
expiration manager. -/
structure Core where
  expiration : Ptr ExpirationManager
  deriving DecidableEq, Repr

/-- Memory holding the `Core` values: the core stored at each address. -/
abbrev CoreMem := Nat → Core

/-- Assignment `c.expiration = m` for the core at address `a`. -/
def CoreMem.setExpiration (mem : CoreMem) (a : Nat) (m : Ptr ExpirationManager) : CoreMem :=
  fun b => if b = a then { mem b with expiration := m } else mem b

/-- Go function value of type
`func(context.Context, *logical.Request, *logical.Response, string) (string, error)`
as produced in this file: the method value `m.Register`, which saves the receiver
`m` when it is formed. -/
inductive LeaseRegisterFunc where
  | nil
  | methodRegister (recv : Ptr ExpirationManager)
  deriving DecidableEq, Repr

/-- Go function value of type `RegisterAuthFunc` as produced in this file: the
method value `c.RegisterAuth`, which saves the receiver `c` when it is formed. -/
inductive RegisterAuthFunc where
  | nil
  | methodRegisterAuth (recv : Ptr Core)
  deriving DecidableEq, Repr

/-- Text of the panic Go raises when a nil pointer is dereferenced. -/
def nilDereference : String :=
  "runtime error: invalid memory address or nil pointer dereference"

/-- Calling a lease-register function value: a method value runs the method
`Register` (given as `impl`) on the receiver saved in it; calling nil panics. -/
def LeaseRegisterFunc.call {σ : Type}
    (impl : Ptr ExpirationManager → Context → Ptr Request → Ptr Response → String → σ →
      Outcome ((String × error) × σ))
    (f : LeaseRegisterFunc) (ctx : Context) (req : Ptr Request) (resp : Ptr Response)
    (src : String) (s : σ) : Outcome ((String × error) × σ) :=
  match f with
  | .nil => .panicked nilDereference
  | .methodRegister recv => impl recv ctx req resp src s

/-- Calling an auth-register function value: a method value runs the method
`RegisterAuth` (given as `impl`) on the receiver saved in it; calling nil panics. -/
def RegisterAuthFunc.call {σ α : Type}
    (impl : Ptr Core → α → σ → Outcome (error × σ))
    (f : RegisterAuthFunc) (args : α) (s : σ) : Outcome (error × σ) :=
  match f with
  | .nil => .panicked nilDereference
  | .methodRegisterAuth recv => impl recv args s

/-! ## The functions of `request_handling_util.go` -/

/-- Source: `waitForReplicationState`, `return nil, nil`. -/
def waitForReplicationState (_ctx : Context) (_c : Ptr Core) (_req : Ptr Request) :
    Ptr WaitGroup × error :=
  (.nil, none)

/-- Source: `checkNeedsCG`, `return nil, nil, nil, nil`. -/
def checkNeedsCG (_ctx : Context) (_c : Ptr Core) (_req : Ptr Request) (_auth : Ptr Auth)
    (_err : error) (_keys : List String) : error × Ptr Response × Ptr Auth × error :=
  (none, .nil, .nil, none)

/-- Source: `checkErrControlGroupTokenNeedsCreated`, `return false`. -/
def checkErrControlGroupTokenNeedsCreated (_err : error) : Bool :=
  false

/-- Source: `shouldForward`, `return false`. -/
def shouldForward (_c : Ptr Core) (_resp : Ptr Response) (_err : error) : Bool :=
  false

/-- Source: `syncCounters`, `return nil`. -/
def syncCounters (_c : Ptr Core) : error :=
  none

/-- Source: `syncBarrierEncryptionCounter`, `return nil`. -/
def syncBarrierEncryptionCounter (_c : Ptr Core) : error :=
  none

/-- Source: `couldForward`, `return false`. -/
def couldForward (_c : Ptr Core) : Bool :=
  false

/-- Source: `forward`, whose body is `panic("forward called in OSS Vault")`. -/
def forward (_ctx : Context) (_c : Ptr Core) (_req : Ptr Request) :
    Outcome (Ptr Response × error) :=
  .panicked "forward called in OSS Vault"

/-- Source: `getLeaseRegisterFunc`, `return c.expiration.Register, nil`. Reading
`c.expiration` dereferences `c`; `Register` is declared in another file of the
package, with a pointer receiver, so forming its method value saves the pointer
`c.expiration` without dereferencing it. -/
def getLeaseRegisterFunc (mem : CoreMem) (c : Ptr Core) : Outcome (LeaseRegisterFunc × error) :=
  match c with
  | .nil => .panicked nilDereference
  | .addr a => .returned (.methodRegister (mem a).expiration, none)

/-- Source: `getAuthRegisterFunc`, `return c.RegisterAuth, nil`. `RegisterAuth` is
declared in another file of the package, with a pointer receiver, so forming its
method value saves the pointer `c` without dereferencing it. -/
def getAuthRegisterFunc (c : Ptr Core) : RegisterAuthFunc × error :=
  (.methodRegisterAuth c, none)

/-- Source: `getUserFailedLoginInfo`: calls the method `c.GetUserFailedLoginInfo`
(parameter `GetUserFailedLoginInfo`) and returns its result. -/
def getUserFailedLoginInfo {σ : Type}
    (GetUserFailedLoginInfo : Ptr Core → Context → FailedLoginUser → σ →
      Outcome (Ptr FailedLoginInfo × σ))
    (ctx : Context) (c : Ptr Core) (userInfo : FailedLoginUser) (s : σ) :
    Outcome (Ptr FailedLoginInfo × σ) :=
  match GetUserFailedLoginInfo c ctx userInfo s with
  | .panicked m => .panicked m
  | .returned (failedLoginInfo, s1) => .returned (failedLoginInfo, s1)

/-- Source: `(c *Core) updateUserFailedLoginInfo`: calls the method
`c.UpdateUserFailedLoginInfo` (parameter `UpdateUserFailedLoginInfo`), returns its
error when that is not nil and nil otherwise. -/
def updateUserFailedLoginInfo {σ : Type}
    (UpdateUserFailedLoginInfo : Ptr Core → Context → FailedLoginUser → FailedLoginInfo → σ →
      Outcome (error × σ))
    (c : Ptr Core) (ctx : Context) (userInfo : FailedLoginUser)
    (failedLoginInfo : FailedLoginInfo) (s : σ) : Outcome (error × σ) :=
  match UpdateUserFailedLoginInfo c ctx userInfo failedLoginInfo s with
  | .panicked m => .panicked m
  | .returned (err, s1) =>
    if err ≠ none then .returned (err, s1)
    else .returned (none, s1)

/-- Source: `possiblyForwardAliasCreation`, `return entity, false, inErr`. -/
def possiblyForwardAliasCreation (_ctx : Context) (_c : Ptr Core) (inErr : error)
    (_auth : Ptr Auth) (entity : Ptr Entity) : Ptr Entity × Bool × error :=
  (entity, false, inErr)

/-- Source: the package variable `errCreateEntityUnimplemented`. -/
def errCreateEntityUnimplemented : String :=
  "create entity unimplemented in the server"

/-- Source: `possiblyForwardEntityCreation`, `return entity, inErr`. -/
def possiblyForwardEntityCreation (_ctx : Context) (_c : Ptr Core) (inErr : error)
    (_auth : Ptr Auth) (entity : Ptr Entity) : Ptr Entity × error :=
  (entity, inErr)

/-- Source: `updateLocalAlias`, `return nil`. -/
def updateLocalAlias (_ctx : Context) (_c : Ptr Core) (_auth : Ptr Auth)
    (_entity : Ptr Entity) : error :=
  none

/-- Source: `possiblyForwardSaveCachedAuthResponse`: calls the method
`c.SaveMFAResponseAuth` (parameter `SaveMFAResponseAuth`), returns its error when
that is not nil and nil otherwise. -/
def possiblyForwardSaveCachedAuthResponse {σ : Type}
    (SaveMFAResponseAuth : Ptr Core → Ptr MFACachedAuthResponse → σ → Outcome (error × σ))
    (_ctx : Context) (c : Ptr Core) (respAuth : Ptr MFACachedAuthResponse) (s : σ) :
    Outcome (error × σ) :=
  match SaveMFAResponseAuth c respAuth s with
  | .panicked m => .panicked m
  | .returned (err, s1) =>
    if err ≠ none then .returned (err, s1)
    else .returned (none, s1)

/-! ## Observing the calls made to a method -/

/-- Wraps a method so that every call made to it is appended, with its arguments,
to a log carried next to the state. The log is the only thing added: the wrapped
method runs on the state unchanged. -/
def logged {σ ι ρ : Type} (f : ι → σ → Outcome (ρ × σ)) (i : ι) (sl : σ × List ι) :
    Outcome (ρ × σ × List ι) :=
  match f i sl.1 with
  | .panicked m => .panicked m
  | .returned (r, s1) => .returned (r, s1, sl.2 ++ [i])

/-! ## Helper lemmas -/

/-- Returning `err` when it is not nil and nil otherwise is returning `err`. -/
theorem returned_err_or_nil {α : Type} (err : error) (s : α) :
    (if err ≠ none then Outcome.returned (err, s) else Outcome.returned (none, s))
      = Outcome.returned (err, s) := by
  by_cases h : err = none
  · subst h; simp
  · simp [h]

/-! ## Forwarding dispatcher -/

/-- Claim C1 is false as stated: at the context `some 0`, the core at address 1 and
the request at address 2, `forward` panics, so it returns no error result at all. -/
theorem forward_no_error_result :
    forward (some 0) (.addr 1) (.addr 2) = .panicked "forward called in OSS Vault" ∧
    ¬ ∃ (resp : Ptr Response) (e : ErrorValue),
        forward (some 0) (.addr 1) (.addr 2) = .returned (resp, some e) := by
  refine ⟨rfl, ?_⟩
  rintro ⟨resp, e, h⟩
  simp [forward] at h

/-- Claim C1, amended: for every context, core and request, `forward` panics with the
message "forward called in OSS Vault"; it returns neither a response nor an error. -/
theorem forward_panics (ctx : Context) (c : Ptr Core) (req : Ptr Request) :
    forward ctx c req = .panicked "forward called in OSS Vault" ∧
    ∀ v : Ptr Response × error, forward ctx c req ≠ .returned v := by
  refine ⟨rfl, ?_⟩
  intro v h
  simp [forward] at h

/-- Claim C4: `couldForward` is false for every core pointer, whatever memory holds. -/
theorem couldForward_false (c : Ptr Core) : couldForward c = false := rfl

/-- Claim C9: `shouldForward` is false for every core, response and error, hence it
implies `couldForward` (as a Boolean implication); a call of `forward` guarded by
`shouldForward` or by `couldForward` is not taken: the guarded expression is its
other branch, whatever that branch is, so `forward` is not run through the guard. -/
theorem shouldForward_guard (ctx : Context) (c : Ptr Core) (req : Ptr Request)
    (resp : Ptr Response) (err : error) (other : Outcome (Ptr Response × error)) :
    shouldForward c resp err = false ∧
    (!shouldForward c resp err || couldForward c) = true ∧
    (if shouldForward c resp err = true then forward ctx c req else other) = other ∧
    (if couldForward c = true then forward ctx c req else other) = other := by
  refine ⟨rfl, rfl, ?_, ?_⟩ <;> simp [shouldForward, couldForward]

/-! ## Replication barrier -/

/-- Claim C5: for every context, core and request, `waitForReplicationState` returns
the nil wait handle together with the nil error. -/
theorem waitForReplicationState_nil (ctx : Context) (c : Ptr Core) (req : Ptr Request) :
    waitForReplicationState ctx c req = (.nil, none) := rfl

/-! ## Control group gate -/

/-- Claim C2 is false as stated: the error with text "permission denied" is not a
needs-control-group error, yet neither error result of `checkNeedsCG` is that error:
both are nil. -/
theorem checkNeedsCG_drops_error :
    checkErrControlGroupTokenNeedsCreated (some ⟨7, "permission denied"⟩) = false ∧
    (checkNeedsCG (some 0) (.addr 1) (.addr 2) (.addr 3)
        (some ⟨7, "permission denied"⟩) ["password"]).1 ≠ some ⟨7, "permission denied"⟩ ∧
    (checkNeedsCG (some 0) (.addr 1) (.addr 2) (.addr 3)
        (some ⟨7, "permission denied"⟩) ["password"]).2.2.2 ≠ some ⟨7, "permission denied"⟩ := by
  refine ⟨rfl, ?_, ?_⟩ <;> simp [checkNeedsCG]

/-- Claim C2, amended: for every context, core, request, auth, input error and key
list, `checkNeedsCG` returns nil in all four positions (no replacement error, no
response, no auth, no returned error), and `checkErrControlGroupTokenNeedsCreated`
is false for every error. -/
theorem checkNeedsCG_all_nil (ctx : Context) (c : Ptr Core) (req : Ptr Request)
    (auth : Ptr Auth) (e : error) (keys : List String) :
    checkNeedsCG ctx c req auth e keys = (none, .nil, .nil, none) ∧
    checkErrControlGroupTokenNeedsCreated e = false :=
  ⟨rfl, rfl⟩

/-! ## Identity resolver -/

/-- Claim C3 is false as stated: with a nil incoming error and a nil entity,
`possiblyForwardEntityCreation` returns the nil entity together with the nil error,
so its error is not one with the text `errCreateEntityUnimplemented`. -/
theorem possiblyForwardEntityCreation_nil_nil :
    possiblyForwardEntityCreation (some 0) (.addr 1) none (.addr 3) .nil = (.nil, none) ∧
    ¬ ∃ e : ErrorValue,
        (possiblyForwardEntityCreation (some 0) (.addr 1) none (.addr 3) .nil).2 = some e ∧
        e.msg = errCreateEntityUnimplemented := by
  refine ⟨rfl, ?_⟩
  rintro ⟨e, h, -⟩
  simp [possiblyForwardEntityCreation] at h

/-- Claim C3, amended: `possiblyForwardEntityCreation` fails exactly when the incoming
error is not nil; its error carries the text `errCreateEntityUnimplemented` exactly
when the incoming error does; with a nil incoming error and a nil entity it returns
the nil entity with the nil error. -/
theorem possiblyForwardEntityCreation_error (ctx : Context) (c : Ptr Core) (inErr : error)
    (auth : Ptr Auth) (entity : Ptr Entity) :
    ((possiblyForwardEntityCreation ctx c inErr auth entity).2 = none ↔ inErr = none) ∧
    ((∃ e : ErrorValue, (possiblyForwardEntityCreation ctx c inErr auth entity).2 = some e ∧
        e.msg = errCreateEntityUnimplemented) ↔
      ∃ e : ErrorValue, inErr = some e ∧ e.msg = errCreateEntityUnimplemented) ∧
    possiblyForwardEntityCreation ctx c none auth .nil = (.nil, none) :=
  ⟨Iff.rfl, Iff.rfl, rfl⟩

/-- Claim C10: for every context, core, incoming error, auth and entity,
`possiblyForwardAliasCreation` returns `(entity, false, inErr)` and
`possiblyForwardEntityCreation` returns `(entity, inErr)`: the entity and the error
are the ones passed in, and the alias variant reports that no entity was created. -/
theorem possiblyForward_pass_through (ctx : Context) (c : Ptr Core) (inErr : error)
    (auth : Ptr Auth) (entity : Ptr Entity) :
    possiblyForwardAliasCreation ctx c inErr auth entity = (entity, false, inErr) ∧
    possiblyForwardEntityCreation ctx c inErr auth entity = (entity, inErr) ∧
    ((possiblyForwardAliasCreation ctx c inErr auth entity).2.2 = none ↔ inErr = none) ∧
    ((possiblyForwardEntityCreation ctx c inErr auth entity).2 = none ↔ inErr = none) :=
  ⟨rfl, rfl, Iff.rfl, Iff.rfl⟩

/-! ## Lease and auth registrars -/

/-- Claim C6 is false as stated: handed the nil core pointer, `getLeaseRegisterFunc`
dereferences it to read `c.expiration` and panics, so it returns no function value
and no nil error there. -/
theorem getLeaseRegisterFunc_nil_core :
    getLeaseRegisterFunc (fun _ => ⟨.addr 5⟩) .nil = .panicked nilDereference ∧
    ¬ ∃ f : LeaseRegisterFunc,
        getLeaseRegisterFunc (fun _ => ⟨.addr 5⟩) .nil = .returned (f, none) := by
  refine ⟨rfl, ?_⟩
  rintro ⟨f, h⟩
  simp [getLeaseRegisterFunc] at h

/-- Claim C6, amended: for every non-nil core pointer (address `a` of memory `mem`),
`getLeaseRegisterFunc` returns the method value `Register` of the manager the core
points to now, with a nil error, and calling it runs `Register` on that manager;
after the assignment `c.expiration = m` it returns the method value of `m`, which is
the earlier result only when `m` is the earlier manager. For every core pointer,
`getAuthRegisterFunc` returns the method value `RegisterAuth` of that pointer, with a
nil error. Handed the nil core pointer, `getLeaseRegisterFunc` panics on the
dereference, whatever memory holds. -/
theorem registerFunc_getters (mem : CoreMem) (a : Nat) (c : Ptr Core)
    (m : Ptr ExpirationManager) :
    getLeaseRegisterFunc mem (.addr a) = .returned (.methodRegister (mem a).expiration, none) ∧
    (∀ (σ : Type) (impl : Ptr ExpirationManager → Context → Ptr Request → Ptr Response →
          String → σ → Outcome ((String × error) × σ))
        (ctx : Context) (req : Ptr Request) (resp : Ptr Response) (src : String) (s : σ),
        LeaseRegisterFunc.call impl (.methodRegister (mem a).expiration) ctx req resp src s
          = impl (mem a).expiration ctx req resp src s) ∧
    getAuthRegisterFunc c = (.methodRegisterAuth c, none) ∧
    getLeaseRegisterFunc (mem.setExpiration a m) (.addr a)
      = .returned (.methodRegister m, none) ∧
    (getLeaseRegisterFunc (mem.setExpiration a m) (.addr a) = getLeaseRegisterFunc mem (.addr a)
      ↔ m = (mem a).expiration) ∧
    getLeaseRegisterFunc mem .nil = .panicked nilDereference := by
  refine ⟨rfl, fun _ _ _ _ _ _ _ => rfl, rfl, ?_, ?_, rfl⟩
  · simp [getLeaseRegisterFunc, CoreMem.setExpiration]
  · simp [getLeaseRegisterFunc, CoreMem.setExpiration]

/-! ## MFA response cache -/

/-- Claim C7: for every implementation of `SaveMFAResponseAuth`, core, `respAuth`
and state, `possiblyForwardSaveCachedAuthResponse` ends exactly as the one call
`c.SaveMFAResponseAuth(respAuth)` ends (same error, nil or not, same state, same
panic); run on the logging method it leaves the log extended by exactly the one
entry `(c, respAuth)`, as that single call does. -/
theorem possiblyForwardSaveCachedAuthResponse_delegates {σ : Type}
    (SaveMFAResponseAuth : Ptr Core → Ptr MFACachedAuthResponse → σ → Outcome (error × σ))
    (ctx : Context) (c : Ptr Core) (respAuth : Ptr MFACachedAuthResponse) (s : σ)
    (log : List (Ptr Core × Ptr MFACachedAuthResponse)) :
    possiblyForwardSaveCachedAuthResponse SaveMFAResponseAuth ctx c respAuth s
      = SaveMFAResponseAuth c respAuth s ∧
    possiblyForwardSaveCachedAuthResponse
        (fun c1 r1 => logged (fun p => SaveMFAResponseAuth p.1 p.2) (c1, r1)) ctx c respAuth (s, log)
      = (match SaveMFAResponseAuth c respAuth s with
          | .panicked msg => .panicked msg
          | .returned (err, s1) => .returned (err, s1, log ++ [(c, respAuth)])) := by
  constructor
  · unfold possiblyForwardSaveCachedAuthResponse
    cases h : SaveMFAResponseAuth c respAuth s with
    | panicked msg => rfl
    | returned v => obtain ⟨err, s1⟩ := v; exact returned_err_or_nil err s1
  · unfold possiblyForwardSaveCachedAuthResponse logged
    dsimp only
    cases h : SaveMFAResponseAuth c respAuth s with
    | panicked msg => rfl
    | returned v => obtain ⟨err, s1⟩ := v; exact returned_err_or_nil err _

/-! ## Lockout tracker -/

/-- Claim C8: for every implementation of the store methods, `getUserFailedLoginInfo`
ends exactly as the one call `c.GetUserFailedLoginInfo(ctx, u)` ends (same pointer,
nil included, same state), and `updateUserFailedLoginInfo` ends exactly as the one
call `c.UpdateUserFailedLoginInfo(ctx, u, info)` ends (same error, nil or not, same
state); run on the logging methods each leaves the log extended by exactly the one
entry holding its own arguments. -/
theorem failedLoginInfo_wrappers_delegate {σ : Type}
    (GetUserFailedLoginInfo : Ptr Core → Context → FailedLoginUser → σ →
      Outcome (Ptr FailedLoginInfo × σ))
    (UpdateUserFailedLoginInfo : Ptr Core → Context → FailedLoginUser → FailedLoginInfo → σ →
      Outcome (error × σ))
    (ctx : Context) (c : Ptr Core) (u : FailedLoginUser) (info : FailedLoginInfo) (s : σ)
    (glog : List (Ptr Core × Context × FailedLoginUser))
    (ulog : List (Ptr Core × Context × FailedLoginUser × FailedLoginInfo)) :
    getUserFailedLoginInfo GetUserFailedLoginInfo ctx c u s = GetUserFailedLoginInfo c ctx u s ∧
    updateUserFailedLoginInfo UpdateUserFailedLoginInfo c ctx u info s
      = UpdateUserFailedLoginInfo c ctx u info s ∧
    getUserFailedLoginInfo
        (fun c1 ctx1 u1 => logged (fun p => GetUserFailedLoginInfo p.1 p.2.1 p.2.2) (c1, ctx1, u1))
        ctx c u (s, glog)
      = (match GetUserFailedLoginInfo c ctx u s with
          | .panicked msg => .panicked msg
          | .returned (r, s1) => .returned (r, s1, glog ++ [(c, ctx, u)])) ∧
    updateUserFailedLoginInfo
        (fun c1 ctx1 u1 i1 =>
          logged (fun p => UpdateUserFailedLoginInfo p.1 p.2.1 p.2.2.1 p.2.2.2) (c1, ctx1, u1, i1))
        c ctx u info (s, ulog)
      = (match UpdateUserFailedLoginInfo c ctx u info s with
          | .panicked msg => .panicked msg
          | .returned (err, s1) => .returned (err, s1, ulog ++ [(c, ctx, u, info)])) := by
  refine ⟨?_, ?_, ?_, ?_⟩
  · unfold getUserFailedLoginInfo
    cases h : GetUserFailedLoginInfo c ctx u s with
    | panicked msg => rfl
    | returned v => rfl
  · unfold updateUserFailedLoginInfo
    cases h : UpdateUserFailedLoginInfo c ctx u info s with
    | panicked msg => rfl
    | returned v => obtain ⟨err, s1⟩ := v; exact returned_err_or_nil err s1
  · unfold getUserFailedLoginInfo logged
    dsimp only
    cases h : GetUserFailedLoginInfo c ctx u s with
    | panicked msg => rfl
    | returned v => rfl
  · unfold updateUserFailedLoginInfo logged
    dsimp only
    cases h : UpdateUserFailedLoginInfo c ctx u info s with
    | panicked msg => rfl
    | returned v => obtain ⟨err, s1⟩ := v; exact returned_err_or_nil err _

end Vault
